import Mathlib

/-!
Shallow embedding of the data-access layer of the jobs-tracker application
(`database_utils.py`, `supabase_utils.py`, `login.py`).

Table rows are modelled as Lean structures and the database as a record of row
lists.  SQL `NULL`-able text columns that the layer copies from caller input
are `Option String`; columns the layer always generates itself are `String`.
The SQLite integer flag `preferred_resume` (always written as 0/1 via
`1 if row['preferred_resume'] else 0`) is modelled as `Bool`.  Environment
probes (`st.secrets`, `os.path.exists`) are passed as explicit boolean
parameters, and the wall clock (`datetime.now()`) as an explicit `DateTime`
parameter, so every operation is a pure state transformer returning the
`(ok, message)` pair the Python functions return.
-/

namespace JobsTracker

/-- Row of the `users` table (`init_db` in `database_utils.py`). -/
structure UserRow where
  id : Nat
  username : String
  password_hash : String
  email : Option String
  created_at : String
deriving DecidableEq, Repr

/-- Row of the `jobs` table.  `date_added` is always generated by the layer
(`datetime.now().strftime(...)` in `add_job`), all other text columns come
from `job_data.get(...)` and may be `NULL`. -/
structure Job where
  id : Nat
  user_id : Nat
  company_name : Option String
  job_title : Option String
  job_description : Option String
  application_url : Option String
  status : Option String
  sentiment : Option String
  notes : Option String
  date_added : String
  location : Option String
  salary : Option String
  applied_date : Option String
deriving DecidableEq, Repr

/-- Row of the `documents` table.  The `document_content` column exists only
in the hosted (Supabase) schema; the SQLite path never reads or writes it. -/
structure Document where
  id : Nat
  user_id : Nat
  document_name : Option String
  document_type : Option String
  upload_date : String
  file_path : Option String
  document_content : Option String
  preferred_resume : Bool
deriving DecidableEq, Repr

/-- Row of the `user_profile` table. -/
structure UserProfile where
  id : Nat
  user_id : Nat
  selected_resume : Option String
  created_date : String
  last_updated_date : String
deriving DecidableEq, Repr

/-- Row of the `career_goals` table. -/
structure CareerGoal where
  id : Nat
  user_id : Nat
  goals : String
  submission_date : String
deriving DecidableEq, Repr

/-- The whole database: the five tables created by `init_db`. -/
structure DBState where
  users : List UserRow
  jobs : List Job
  documents : List Document
  profiles : List UserProfile
  career_goals : List CareerGoal
deriving DecidableEq, Repr

/-- `AUTOINCREMENT` id allocation: a fresh id strictly above all present ids. -/
def freshId (ids : List Nat) : Nat :=
  ids.foldl Nat.max 0 + 1

/-! Wall-clock values and the `"%Y-%m-%d %H:%M:%S"` text format. -/

/-- A wall-clock reading (`datetime.now()`), split into the six fields that
the `"%Y-%m-%d %H:%M:%S"` format prints. -/
structure DateTime where
  year : Nat
  month : Nat
  day : Nat
  hour : Nat
  minute : Nat
  second : Nat
deriving DecidableEq, Repr

/-- A calendar-plausible clock reading (what `datetime.now()` can return,
restricted to four-digit years, which is what `%Y` zero-pads to). -/
def DateTime.Valid (dt : DateTime) : Prop :=
  1 ≤ dt.month ∧ dt.month ≤ 12 ∧ 1 ≤ dt.day ∧ dt.day ≤ 31 ∧
  dt.hour < 24 ∧ dt.minute < 60 ∧ dt.second < 60 ∧ dt.year < 10000

/-- Chronological order on clock readings (lexicographic on the six fields). -/
def dtLe (a b : DateTime) : Prop :=
  a.year < b.year ∨ (a.year = b.year ∧
    (a.month < b.month ∨ (a.month = b.month ∧
      (a.day < b.day ∨ (a.day = b.day ∧
        (a.hour < b.hour ∨ (a.hour = b.hour ∧
          (a.minute < b.minute ∨ (a.minute = b.minute ∧
            a.second ≤ b.second)))))))))

instance (a b : DateTime) : Decidable (dtLe a b) := by
  unfold dtLe
  infer_instance

instance (dt : DateTime) : Decidable dt.Valid := by
  unfold DateTime.Valid
  infer_instance

/-- Fixed-width zero-padded decimal rendering (`%Y` is `padDigits 4`,
`%m`/`%d`/`%H`/`%M`/`%S` are `padDigits 2`), most significant digit first. -/
def padDigits : Nat → Nat → List Char
  | 0, _ => []
  | w + 1, n => Nat.digitChar (n / 10 ^ w % 10) :: padDigits w (n % 10 ^ w)

/-- Character list of `dt.strftime("%Y-%m-%d %H:%M:%S")`. -/
def fmtChars (dt : DateTime) : List Char :=
  padDigits 4 dt.year ++ '-' ::
    (padDigits 2 dt.month ++ '-' ::
      (padDigits 2 dt.day ++ ' ' ::
        (padDigits 2 dt.hour ++ ':' ::
          (padDigits 2 dt.minute ++ ':' :: padDigits 2 dt.second))))

/-- The timestamp text the data layer stores: `strftime("%Y-%m-%d %H:%M:%S")`. -/
def fmtTimestamp (dt : DateTime) : String :=
  String.mk (fmtChars dt)

/-- Strict lexicographic order on character lists by code point (the order in
which both SQLite `TEXT` comparison and Python string comparison compare the
stored timestamp strings). -/
def lexLt : List Char → List Char → Bool
  | [], [] => false
  | [], _ :: _ => true
  | _ :: _, [] => false
  | a :: as, b :: bs =>
    if a.toNat < b.toNat then true
    else if b.toNat < a.toNat then false
    else lexLt as bs

/-- Reflexive lexicographic order on character lists by code point. -/
def lexLe : List Char → List Char → Bool
  | [], _ => true
  | _ :: _, [] => false
  | a :: as, b :: bs =>
    if a.toNat < b.toNat then true
    else if b.toNat < a.toNat then false
    else lexLe as bs

/-- String comparison `a <= b` as SQLite (`BINARY` collation on `TEXT`) and
Python (`str.__le__`) both perform it on these ASCII timestamp strings. -/
def strLe (a b : String) : Bool :=
  lexLe a.data b.data

/-! Backend selection (`database_utils.py`, lines 20-30).  The three
environment facts the Python code probes are passed as parameters:
whether `from supabase_utils import ...` succeeded (`supabase_available`),
whether `st.secrets` carries the key `SUPABASE_URL` (`secrets_has_url`),
and whether the file `data/jobs.db` exists (`local_db_exists`). -/

/-- `is_cloud_environment`: returns `True` as soon as the Supabase URL is in
the Streamlit secrets, and otherwise reports whether `data/jobs.db` is
missing. -/
def is_cloud_environment (secrets_has_url local_db_exists : Bool) : Bool :=
  if secrets_has_url then true else !local_db_exists

/-- `use_supabase`: `SUPABASE_AVAILABLE and is_cloud_environment()`. -/
def use_supabase (supabase_available secrets_has_url local_db_exists : Bool) : Bool :=
  supabase_available && is_cloud_environment secrets_has_url local_db_exists

/-! Caller-supplied field dictionaries.  Each structure lists the keys the
call sites can place in the corresponding Python `dict`; the layer reads only
some of them (`.get(...)`), and the unread ones are noted per field. -/

/-- The `job_data` dictionary of `add_job` / `supabase_add_job`.  The field
`date_added` models a caller-supplied creation timestamp: neither backend
ever reads that key (the stored `date_added` is `datetime.now()`-generated). -/
structure JobData where
  company_name : Option String
  job_title : Option String
  job_description : Option String
  application_url : Option String
  status : Option String
  sentiment : Option String
  notes : Option String
  location : Option String
  salary : Option String
  applied_date : Option String
  date_added : Option String
deriving DecidableEq, Repr

/-- The `document_data` dictionary of `add_document` /
`supabase_add_document`.  The field `preferred_resume` models a
caller-supplied flag: neither backend reads it (SQLite leaves the column to
its `DEFAULT 0`, Supabase hard-codes `'preferred_resume': 0`). -/
structure DocumentData where
  document_name : Option String
  document_type : Option String
  file_path : Option String
  document_content : Option String
  preferred_resume : Bool
deriving DecidableEq, Repr

/-- The `profile_data` dictionary of `update_user_profile`.  The fields
`created_date` and `last_updated_date` model caller-supplied timestamps:
neither backend reads them (both are `datetime.now()`-generated). -/
structure ProfileData where
  selected_resume : Option String
  created_date : Option String
  last_updated_date : Option String
deriving DecidableEq, Repr

/-- One row of the bulk-edit grid `documents_df` handed to the batch
document-save path.  The grid displays every column, but the save path reads
only `id` and `preferred_resume`. -/
structure DocRow where
  id : Nat
  user_id : Nat
  document_name : Option String
  document_type : Option String
  upload_date : String
  file_path : Option String
  document_content : Option String
  preferred_resume : Bool
deriving DecidableEq, Repr

/-! The CRUD operations.  SQLite-path functions keep their Python names;
hosted-path functions keep their `supabase_` names.  Each returns the new
database state together with the `(ok, message)` pair of the source. -/

/-- `add_job` (SQLite branch): `INSERT INTO jobs ...` with
`date_added = datetime.now().strftime("%Y-%m-%d %H:%M:%S")`. -/
def add_job (st : DBState) (user_id : Nat) (job_data : JobData) (now : DateTime) :
    DBState × Bool × String :=
  ({ st with jobs := st.jobs ++
      [{ id := freshId (st.jobs.map (fun j => j.id))
         user_id := user_id
         company_name := job_data.company_name
         job_title := job_data.job_title
         job_description := job_data.job_description
         application_url := job_data.application_url
         status := job_data.status
         sentiment := job_data.sentiment
         notes := job_data.notes
         date_added := fmtTimestamp now
         location := job_data.location
         salary := job_data.salary
         applied_date := job_data.applied_date }] }, true, "Job added successfully!")

/-- `supabase_add_job`: inserts the same record through the REST client,
with `date_added = datetime.now().strftime("%Y-%m-%d %H:%M:%S")`. -/
def supabase_add_job (st : DBState) (user_id : Nat) (job_data : JobData) (now : DateTime) :
    DBState × Bool × String :=
  ({ st with jobs := st.jobs ++
      [{ id := freshId (st.jobs.map (fun j => j.id))
         user_id := user_id
         company_name := job_data.company_name
         job_title := job_data.job_title
         job_description := job_data.job_description
         application_url := job_data.application_url
         status := job_data.status
         sentiment := job_data.sentiment
         notes := job_data.notes
         date_added := fmtTimestamp now
         location := job_data.location
         salary := job_data.salary
         applied_date := job_data.applied_date }] }, true, "Job added successfully!")

/-- `add_document` (SQLite branch): the `INSERT` lists only
`(user_id, document_name, document_type, upload_date, file_path)`, so
`preferred_resume` takes its schema `DEFAULT 0`; the SQLite schema has no
content column. -/
def add_document (st : DBState) (user_id : Nat) (document_data : DocumentData)
    (now : DateTime) : DBState × Bool × String :=
  ({ st with documents := st.documents ++
      [{ id := freshId (st.documents.map (fun d => d.id))
         user_id := user_id
         document_name := document_data.document_name
         document_type := document_data.document_type
         upload_date := fmtTimestamp now
         file_path := document_data.file_path
         document_content := none
         preferred_resume := false }] }, true, "Document added successfully!")

/-- `supabase_add_document`: the inserted record hard-codes
`'preferred_resume': 0` and also stores `document_content`. -/
def supabase_add_document (st : DBState) (user_id : Nat) (document_data : DocumentData)
    (now : DateTime) : DBState × Bool × String :=
  ({ st with documents := st.documents ++
      [{ id := freshId (st.documents.map (fun d => d.id))
         user_id := user_id
         document_name := document_data.document_name
         document_type := document_data.document_type
         upload_date := fmtTimestamp now
         file_path := document_data.file_path
         document_content := document_data.document_content
         preferred_resume := false }] }, true, "Document added successfully!")

/-- `add_career_goals` (SQLite branch). -/
def add_career_goals (st : DBState) (user_id : Nat) (goals : String) (now : DateTime) :
    DBState × Bool × String :=
  ({ st with career_goals := st.career_goals ++
      [{ id := freshId (st.career_goals.map (fun g => g.id))
         user_id := user_id
         goals := goals
         submission_date := fmtTimestamp now }] }, true,
    "Career goals added successfully!")

/-- `supabase_add_career_goals`. -/
def supabase_add_career_goals (st : DBState) (user_id : Nat) (goals : String) (now : DateTime) :
    DBState × Bool × String :=
  ({ st with career_goals := st.career_goals ++
      [{ id := freshId (st.career_goals.map (fun g => g.id))
         user_id := user_id
         goals := goals
         submission_date := fmtTimestamp now }] }, true,
    "Career goals added successfully!")

/-- `update_user_profile` (SQLite branch): upsert keyed on `user_id`.  An
existing row keeps its `created_date` and gets a fresh `last_updated_date`;
a new row gets both set to the clock reading. -/
def update_user_profile (st : DBState) (user_id : Nat) (profile_data : ProfileData)
    (now : DateTime) : DBState × Bool × String :=
  match st.profiles.find? (fun p => p.user_id == user_id) with
  | some _ =>
    ({ st with profiles := st.profiles.map (fun p =>
        if p.user_id = user_id then
          { p with selected_resume := profile_data.selected_resume
                   last_updated_date := fmtTimestamp now }
        else p) }, true, "Profile updated successfully!")
  | none =>
    ({ st with profiles := st.profiles ++
        [{ id := freshId (st.profiles.map (fun p => p.id))
           user_id := user_id
           selected_resume := profile_data.selected_resume
           created_date := fmtTimestamp now
           last_updated_date := fmtTimestamp now }] }, true,
      "Profile updated successfully!")

/-- `supabase_update_user_profile`: the same upsert keyed on `user_id`. -/
def supabase_update_user_profile (st : DBState) (user_id : Nat) (profile_data : ProfileData)
    (now : DateTime) : DBState × Bool × String :=
  match st.profiles.find? (fun p => p.user_id == user_id) with
  | some _ =>
    ({ st with profiles := st.profiles.map (fun p =>
        if p.user_id = user_id then
          { p with selected_resume := profile_data.selected_resume
                   last_updated_date := fmtTimestamp now }
        else p) }, true, "Profile updated successfully!")
  | none =>
    ({ st with profiles := st.profiles ++
        [{ id := freshId (st.profiles.map (fun p => p.id))
           user_id := user_id
           selected_resume := profile_data.selected_resume
           created_date := fmtTimestamp now
           last_updated_date := fmtTimestamp now }] }, true,
      "Profile updated successfully!")

/-! The batch document-save path (`save_documents_to_database`, lines 283-320
of `database_utils.py`, and `supabase_save_documents_to_database`, lines
203-228 of `supabase_utils.py`).  Both functions run the identical algorithm:
count the batch rows marked preferred and reject the whole batch if more than
one; otherwise, per row, look up the first stored document with the row's id
(`SELECT user_id FROM documents WHERE id = ?` / `.select('user_id').eq('id',
row['id'])`), silently skip the row unless that document belongs to the
acting user, and otherwise update `preferred_resume` (and nothing else) on
the rows matching `id = ? AND user_id = ?`. -/

/-- The per-document effect of the batch `UPDATE documents SET
preferred_resume = ? WHERE id = ? AND user_id = ?`. -/
def updFn (user_id : Nat) (row : DocRow) (d : Document) : Document :=
  if d.id = row.id ∧ d.user_id = user_id then
    { d with preferred_resume := row.preferred_resume }
  else d

/-- One iteration of the batch loop: ownership lookup, silent skip, update. -/
def applyDocRow (user_id : Nat) (docs : List Document) (row : DocRow) : List Document :=
  match docs.find? (fun d => d.id == row.id) with
  | none => docs
  | some d => if d.user_id = user_id then docs.map (updFn user_id row) else docs

/-- The batch loop `for _, row in documents_df.iterrows(): ...`. -/
def saveDocsLoop (user_id : Nat) (docs : List Document) (rows : List DocRow) :
    List Document :=
  rows.foldl (applyDocRow user_id) docs

/-- `save_documents_to_database` (SQLite branch). -/
def save_documents_to_database (st : DBState) (user_id : Nat) (rows : List DocRow) :
    DBState × Bool × String :=
  if 1 < (rows.filter (fun r => r.preferred_resume)).length then
    (st, false, "Only one document can be set as preferred resume per user")
  else
    ({ st with documents := saveDocsLoop user_id st.documents rows }, true,
      "Documents updated successfully!")

/-- `supabase_save_documents_to_database`: the hosted path runs the same
validation, skip and update steps through the REST client. -/
def supabase_save_documents_to_database (st : DBState) (user_id : Nat)
    (rows : List DocRow) : DBState × Bool × String :=
  if 1 < (rows.filter (fun r => r.preferred_resume)).length then
    (st, false, "Only one document can be set as preferred resume per user")
  else
    ({ st with documents := saveDocsLoop user_id st.documents rows }, true,
      "Documents updated successfully!")

/-- `get_preferred_resume` (SQLite branch): `SELECT * FROM documents WHERE
user_id = ? AND preferred_resume = 1 AND document_type = 'Resume' LIMIT 1`,
returning the row if any and `None` otherwise. -/
def get_preferred_resume (st : DBState) (user_id : Nat) : Option Document :=
  (st.documents.filter (fun d =>
    d.user_id == user_id && d.preferred_resume && d.document_type == some "Resume")).head?

/-- `supabase_get_preferred_resume`: the same three equality filters with
`limit(1)`, returning `None` when no row matches. -/
def supabase_get_preferred_resume (st : DBState) (user_id : Nat) : Option Document :=
  (st.documents.filter (fun d =>
    d.user_id == user_id && d.preferred_resume && d.document_type == some "Resume")).head?

/-- `delete_document` (SQLite branch, database effect only): the lookup and
the `DELETE` are both scoped by `id = ? AND user_id = ?`. -/
def delete_document (st : DBState) (user_id document_id : Nat) :
    DBState × Bool × String :=
  match st.documents.find? (fun d => d.id == document_id && d.user_id == user_id) with
  | none => (st, false, "Document not found or access denied")
  | some _ =>
    ({ st with documents :=
        st.documents.filter (fun d => !(d.id == document_id && d.user_id == user_id)) },
      true, "Document deleted successfully!")

/-- `supabase_delete_document`: looks up the first row with the given id,
rejects unless it belongs to the acting user, then deletes the rows matching
both id and user. -/
def supabase_delete_document (st : DBState) (user_id document_id : Nat) :
    DBState × Bool × String :=
  match st.documents.find? (fun d => d.id == document_id) with
  | none => (st, false, "Document not found or access denied")
  | some d =>
    if d.user_id = user_id then
      ({ st with documents :=
          st.documents.filter (fun d' => !(d'.id == document_id && d'.user_id == user_id)) },
        true, "Document deleted successfully!")
    else (st, false, "Document not found or access denied")

/-! Statistics (`get_user_stats`, lines 375-407 of `database_utils.py`, and
`supabase_get_user_stats`, lines 282-318 of `supabase_utils.py`).  Python
dictionaries compare by content, so both status dictionaries are rendered
through the same canonical association-list constructor `countsBy`; the
SQLite `GROUP BY status` groups `NULL` statuses under a `NULL` key, while
pandas `value_counts()` (default `dropna=True`) silently discards them.
Each path's trailing-7-day cutoff (`date('now', '-7 days')` resp.
`(datetime.now() - timedelta(days=7)).strftime("%Y-%m-%d")`) is passed in as
the `cutoff` string, since each is computed from the data layer's own clock,
and both compare it to the stored `date_added` text with plain string
comparison. -/

/-- Canonical association list of a multiset of status keys: distinct keys in
first-appearance order, each with its multiplicity. -/
def countsBy (keys : List (Option String)) : List (Option String × Nat) :=
  keys.dedup.map (fun k => (k, (keys.filter (fun x => x == k)).length))

/-- `get_user_stats` (SQLite branch): `COUNT(*)`, `GROUP BY status` (with a
`NULL` group when `NULL` statuses exist), and `date_added >= cutoff`. -/
def get_user_stats (st : DBState) (user_id : Nat) (cutoff : String) :
    Nat × List (Option String × Nat) × Nat :=
  ((st.jobs.filter (fun j => j.user_id == user_id)).length,
   countsBy ((st.jobs.filter (fun j => j.user_id == user_id)).map (fun j => j.status)),
   ((st.jobs.filter (fun j => j.user_id == user_id)).filter
     (fun j => strLe cutoff j.date_added)).length)

/-- `supabase_get_user_stats`: fetches the user's rows, returns zeros on an
empty frame, and otherwise counts client-side with `len`, `value_counts()`
(which drops `NULL` statuses) and a string comparison against the cutoff. -/
def supabase_get_user_stats (st : DBState) (user_id : Nat) (cutoff : String) :
    Nat × List (Option String × Nat) × Nat :=
  if (st.jobs.filter (fun j => j.user_id == user_id)).isEmpty then (0, [], 0)
  else
    ((st.jobs.filter (fun j => j.user_id == user_id)).length,
     countsBy ((((st.jobs.filter (fun j => j.user_id == user_id)).map
       (fun j => j.status)).filterMap id).map some),
     ((st.jobs.filter (fun j => j.user_id == user_id)).filter
       (fun j => strLe cutoff j.date_added)).length)

/-! User administration (`save_users_to_database`, lines 21-67 of
`login.py`): diff-replace of the `users` table.  Rows present in the table
but absent from the edited grid are deleted with `DELETE FROM users WHERE id
IN (...)` — and nothing else is deleted: the schema's foreign keys
(`init_db`) declare no `ON DELETE CASCADE`, and SQLite does not even enforce
them by default, so rows of the other four tables are never touched by this
path. -/

/-- One row of the user-administration edit grid; `id = none` models the
`NaN` id of a newly inserted grid row. -/
structure UserEditRow where
  id : Option Nat
  username : String
  password_hash : String
  email : Option String
  created_at : String
deriving DecidableEq, Repr

/-- The per-row `UPDATE users ... WHERE id = ?` (grid row with an id) or
`INSERT INTO users ...` (grid row with a `NaN` id) of the loop in
`save_users_to_database`. -/
def userEditStep (now : DateTime) (us : List UserRow) (r : UserEditRow) : List UserRow :=
  match r.id with
  | some i =>
    us.map (fun u =>
      if u.id = i then
        { u with username := r.username
                 password_hash := r.password_hash
                 email := r.email
                 created_at := r.created_at }
      else u)
  | none =>
    us ++ [{ id := freshId (us.map (fun u => u.id))
             username := r.username
             password_hash := r.password_hash
             email := r.email
             created_at := fmtTimestamp now }]

/-- `save_users_to_database`: delete the users missing from the grid, update
the rows with ids (taking even `created_at` from the grid), insert the rows
without ids (with a generated `created_at`).  No table other than `users` is
touched. -/
def save_users_to_database (st : DBState) (rows : List UserEditRow) (now : DateTime) :
    DBState × Bool × String :=
  let edited_ids := rows.filterMap (fun r => r.id)
  let kept := st.users.filter (fun u => edited_ids.contains u.id)
  ({ st with users := rows.foldl (userEditStep now) kept }, true,
    "Changes saved successfully!")

/-- Which fields of a stored document the batch document-save path is allowed
to change: everything except the preferred flag must be kept verbatim. -/
def SameExceptPreferred (d d' : Document) : Prop :=
  d'.id = d.id ∧ d'.user_id = d.user_id ∧ d'.document_name = d.document_name ∧
  d'.document_type = d.document_type ∧ d'.upload_date = d.upload_date ∧
  d'.file_path = d.file_path ∧ d'.document_content = d.document_content

/-! Concrete fixtures used to evaluate the operations on explicit inputs. -/

/-- The bulk-edit grid row displaying a stored document, with the preferred
checkbox set to `pref`. -/
def rowOf (d : Document) (pref : Bool) : DocRow :=
  ⟨d.id, d.user_id, d.document_name, d.document_type, d.upload_date,
   d.file_path, d.document_content, pref⟩

/-- User 1's stored resume, currently flagged preferred. -/
def fixDoc1 : Document :=
  ⟨1, 1, some "Resume_A", some "Resume", "2026-01-01 09:00:00",
   some "data/documents/a.pdf", none, true⟩

/-- User 1's stored cover letter, not flagged. -/
def fixDoc2 : Document :=
  ⟨2, 1, some "Cover_B", some "Cover Letter", "2026-01-02 09:00:00",
   some "data/documents/b.pdf", none, false⟩

/-- User 2's stored resume, not flagged. -/
def fixDoc3 : Document :=
  ⟨3, 2, some "Resume_C", some "Resume", "2026-01-03 09:00:00",
   some "data/documents/c.pdf", none, false⟩

/-- A document store holding the three fixture documents. -/
def stDocs : DBState := ⟨[], [], [fixDoc1, fixDoc2, fixDoc3], [], []⟩

/-- A full-coverage batch for user 1 with exactly one preferred row. -/
def c1rows : List DocRow := [rowOf fixDoc1 true, rowOf fixDoc2 false]

/-- A batch for user 1 with two preferred rows. -/
def c2rows : List DocRow := [rowOf fixDoc1 true, rowOf fixDoc2 true]

/-- A batch for user 1 with one preferred row and one row targeting a
document of user 2. -/
def c6rows : List DocRow := [rowOf fixDoc2 true, rowOf fixDoc3 false]

/-- A job of user 1 stored with a `NULL` status. -/
def jobNullStatus : Job :=
  ⟨1, 1, some "Acme", some "Engineer", none, none, none, none, none,
   "2026-10-10 10:00:00", none, none, none⟩

/-- A job store holding only `jobNullStatus`. -/
def stStats : DBState := ⟨[], [jobNullStatus], [], [], []⟩

/-- A stored job of user 1 with the given id, status and creation stamp. -/
def mkJob (i : Nat) (s : String) (dt : String) : Job :=
  ⟨i, 1, some "Acme", some "Engineer", none, none, some s, none, none,
   dt, none, none, none⟩

/-- The cross-backend statistics fixture: one user with jobs in statuses
Applied times 3, Rejected times 2, Interviewing times 1, two of them within
the trailing window. -/
def stSix : DBState :=
  ⟨[], [mkJob 1 "Applied" "2026-10-10 09:00:00",
        mkJob 2 "Applied" "2026-09-01 09:00:00",
        mkJob 3 "Applied" "2026-09-02 09:00:00",
        mkJob 4 "Rejected" "2026-10-11 09:00:00",
        mkJob 5 "Rejected" "2026-09-03 09:00:00",
        mkJob 6 "Interviewing" "2026-09-04 09:00:00"], [], [], []⟩

/-- A registered user. -/
def u1 : UserRow := ⟨1, "alice", "hash1", some "a@x.com", "2026-01-01 00:00:00"⟩

/-- A database in which user 1 owns one row of every entity. -/
def stFull : DBState :=
  ⟨[u1],
   [mkJob 1 "Applied" "2026-10-10 09:00:00"],
   [fixDoc1],
   [⟨1, 1, some "Resume_A", "2026-01-01 00:00:00", "2026-01-01 00:00:00"⟩],
   [⟨1, 1, "Grow into a staff role", "2026-01-01 00:00:00"⟩]⟩

/-- A user-administration grid keeping (and editing) user 1. -/
def c5rows : List UserEditRow :=
  [⟨some 1, "alice", "hash1", some "a@x.com", "2026-01-01 00:00:00"⟩]

/-- A concrete clock reading. -/
def nowW : DateTime := ⟨2026, 10, 12, 9, 5, 3⟩

/-- A concrete clock reading one second later. -/
def nowW2 : DateTime := ⟨2026, 10, 12, 9, 5, 4⟩

/-- Caller-supplied job fields, including a bogus `date_added` value that the
data layer must ignore. -/
def jdW : JobData :=
  ⟨some "Acme", some "Engineer", none, none, some "Applied", none, none,
   none, none, none, some "1999-01-01 00:00:00"⟩

/-- Caller-supplied document fields, including `preferred_resume = true`
that the upload path must ignore. -/
def ddW : DocumentData :=
  ⟨some "New_Resume", some "Resume", some "data/documents/n.pdf",
   some "resume text", true⟩

/-- The job stored by `add_job stDocs 1 jdW nowW`. -/
def j1W : Job :=
  ⟨1, 1, some "Acme", some "Engineer", none, none, some "Applied", none, none,
   "2026-10-12 09:05:03", none, none, none⟩

/-- The job stored by the immediately following `add_job` at `nowW2`. -/
def j2W : Job :=
  ⟨2, 1, some "Acme", some "Engineer", none, none, some "Applied", none, none,
   "2026-10-12 09:05:04", none, none, none⟩

/-! Order lemmas for the `"%Y-%m-%d %H:%M:%S"` text format: zero-padded
fixed-width decimal rendering turns chronological order into lexicographic
string order. -/

theorem lexLe_refl (l : List Char) : lexLe l l = true := by
  induction l with
  | nil => rfl
  | cons a as ih => simp [lexLe, ih]

theorem lexLt_lexLe (l1 l2 : List Char) (h : lexLt l1 l2 = true) :
    lexLe l1 l2 = true := by
  induction l1 generalizing l2 with
  | nil => simp [lexLe]
  | cons a as ih =>
    cases l2 with
    | nil => simp [lexLt] at h
    | cons b bs =>
      simp only [lexLt] at h
      simp only [lexLe]
      by_cases h1 : a.toNat < b.toNat
      · simp [h1]
      · by_cases h2 : b.toNat < a.toNat
        · simp [h1, h2] at h
        · simp only [h1, h2, if_false] at h ⊢
          exact ih bs h

theorem lexLt_append (l1 l2 r1 r2 : List Char) (hlen : l1.length = l2.length)
    (h : lexLt l1 l2 = true) : lexLt (l1 ++ r1) (l2 ++ r2) = true := by
  induction l1 generalizing l2 with
  | nil =>
    cases l2 with
    | nil => simp [lexLt] at h
    | cons b bs => simp at hlen
  | cons a as ih =>
    cases l2 with
    | nil => simp at hlen
    | cons b bs =>
      simp only [List.cons_append]
      simp only [lexLt] at h ⊢
      by_cases h1 : a.toNat < b.toNat
      · simp [h1]
      · by_cases h2 : b.toNat < a.toNat
        · simp [h1, h2] at h
        · simp only [h1, h2, if_false] at h ⊢
          exact ih bs (by simpa using hlen) h

theorem lexLe_append_left (l r1 r2 : List Char) (h : lexLe r1 r2 = true) :
    lexLe (l ++ r1) (l ++ r2) = true := by
  induction l with
  | nil => simpa
  | cons a as ih => simpa [lexLe] using ih

theorem padDigits_length (w n : Nat) : (padDigits w n).length = w := by
  induction w generalizing n with
  | zero => rfl
  | succ w ih => simp [padDigits, ih]

theorem digitChar_toNat_lt :
    ∀ a b : Fin 10, a.val < b.val →
      (Nat.digitChar a.val).toNat < (Nat.digitChar b.val).toNat := by
  decide

theorem padDigits_lt (w a b : Nat) (hab : a < b) (hb : b < 10 ^ w) :
    lexLt (padDigits w a) (padDigits w b) = true := by
  induction w generalizing a b with
  | zero =>
    simp only [pow_zero] at hb
    omega
  | succ w ih =>
    have hp : 0 < 10 ^ w := pow_pos (by norm_num) w
    have hq : a / 10 ^ w ≤ b / 10 ^ w := Nat.div_le_div_right (le_of_lt hab)
    have hqb : b / 10 ^ w < 10 := by
      rw [Nat.div_lt_iff_lt_mul hp]
      calc b < 10 ^ (w + 1) := hb
        _ = 10 * 10 ^ w := by ring
    rcases Nat.lt_or_ge (a / 10 ^ w) (b / 10 ^ w) with hlt | hge
    · have ha10 : a / 10 ^ w < 10 := lt_of_lt_of_le hlt (le_of_lt hqb)
      simp only [padDigits, lexLt]
      rw [Nat.mod_eq_of_lt ha10, Nat.mod_eq_of_lt hqb]
      have hd := digitChar_toNat_lt ⟨a / 10 ^ w, ha10⟩ ⟨b / 10 ^ w, hqb⟩ hlt
      simp [hd]
    · have heq : a / 10 ^ w = b / 10 ^ w := le_antisymm hq hge
      have hmod : a % 10 ^ w < b % 10 ^ w := by
        have h1 : 10 ^ w * (b / 10 ^ w) + a % 10 ^ w = a := by
          rw [← heq]; exact Nat.div_add_mod a _
        have h2 : 10 ^ w * (b / 10 ^ w) + b % 10 ^ w = b := Nat.div_add_mod b _
        generalize hA : 10 ^ w * (b / 10 ^ w) = A at h1 h2
        omega
      have hmb : b % 10 ^ w < 10 ^ w := Nat.mod_lt _ hp
      simp only [padDigits, lexLt, heq]
      simp only [Nat.lt_irrefl, if_false]
      exact ih _ _ hmod hmb

theorem lexLe_step (w x y : Nat) (r1 r2 : List Char) (hxy : x ≤ y) (hy : y < 10 ^ w)
    (hr : x = y → lexLe r1 r2 = true) :
    lexLe (padDigits w x ++ r1) (padDigits w y ++ r2) = true := by
  rcases Nat.eq_or_lt_of_le hxy with heq | hlt
  · subst heq; exact lexLe_append_left _ _ _ (hr rfl)
  · exact lexLt_lexLe _ _ (lexLt_append _ _ _ _
      (by rw [padDigits_length, padDigits_length]) (padDigits_lt w x y hlt hy))

theorem lexLe_step_sep (w x y : Nat) (c : Char) (r1 r2 : List Char) (hxy : x ≤ y)
    (hy : y < 10 ^ w) (hr : x = y → lexLe r1 r2 = true) :
    lexLe (padDigits w x ++ c :: r1) (padDigits w y ++ c :: r2) = true := by
  refine lexLe_step w x y _ _ hxy hy (fun he => ?_)
  simpa [lexLe] using hr he

/-- Chronological order of valid clock readings is preserved by the stored
`"%Y-%m-%d %H:%M:%S"` text: the format is sortable. -/
theorem fmtTimestamp_mono (a b : DateTime) (hb : b.Valid) (hab : dtLe a b) :
    strLe (fmtTimestamp a) (fmtTimestamp b) = true := by
  obtain ⟨hbm1, hbm2, hbd1, hbd2, hbh, hbmin, hbs, hby⟩ := hb
  have e4 : (10 : Nat) ^ 4 = 10000 := by norm_num
  have e2 : (10 : Nat) ^ 2 = 100 := by norm_num
  show lexLe (fmtChars a) (fmtChars b) = true
  unfold fmtChars
  apply lexLe_step_sep 4 _ _ _ _ _ (by rcases hab with h | ⟨h, _⟩ <;> omega)
    (by omega)
  intro hyear
  have hab1 : a.month < b.month ∨ (a.month = b.month ∧
      (a.day < b.day ∨ (a.day = b.day ∧
        (a.hour < b.hour ∨ (a.hour = b.hour ∧
          (a.minute < b.minute ∨ (a.minute = b.minute ∧
            a.second ≤ b.second))))))) := by
    rcases hab with h | ⟨_, h2⟩
    · omega
    · exact h2
  apply lexLe_step_sep 2 _ _ _ _ _ (by rcases hab1 with h | ⟨h, _⟩ <;> omega)
    (by omega)
  intro hmonth
  have hab2 : a.day < b.day ∨ (a.day = b.day ∧
      (a.hour < b.hour ∨ (a.hour = b.hour ∧
        (a.minute < b.minute ∨ (a.minute = b.minute ∧
          a.second ≤ b.second))))) := by
    rcases hab1 with h | ⟨_, h2⟩
    · omega
    · exact h2
  apply lexLe_step_sep 2 _ _ _ _ _ (by rcases hab2 with h | ⟨h, _⟩ <;> omega)
    (by omega)
  intro hday
  have hab3 : a.hour < b.hour ∨ (a.hour = b.hour ∧
      (a.minute < b.minute ∨ (a.minute = b.minute ∧ a.second ≤ b.second))) := by
    rcases hab2 with h | ⟨_, h2⟩
    · omega
    · exact h2
  apply lexLe_step_sep 2 _ _ _ _ _ (by rcases hab3 with h | ⟨h, _⟩ <;> omega)
    (by omega)
  intro hhour
  have hab4 : a.minute < b.minute ∨ (a.minute = b.minute ∧ a.second ≤ b.second) := by
    rcases hab3 with h | ⟨_, h2⟩
    · omega
    · exact h2
  apply lexLe_step_sep 2 _ _ _ _ _ (by rcases hab4 with h | ⟨h, _⟩ <;> omega)
    (by omega)
  intro hminute
  have hab5 : a.second ≤ b.second := by
    rcases hab4 with h | ⟨_, h2⟩
    · omega
    · exact h2
  exact lexLe_step 2 _ _ _ _ hab5 (by omega) (fun _ => lexLe_refl _)

/-! Structural lemmas about the batch document-save loop. -/

theorem sep_refl (d : Document) : SameExceptPreferred d d :=
  ⟨rfl, rfl, rfl, rfl, rfl, rfl, rfl⟩

theorem sep_trans {a b c : Document} (h1 : SameExceptPreferred a b)
    (h2 : SameExceptPreferred b c) : SameExceptPreferred a c := by
  obtain ⟨e1, e2, e3, e4, e5, e6, e7⟩ := h1
  obtain ⟨f1, f2, f3, f4, f5, f6, f7⟩ := h2
  exact ⟨f1.trans e1, f2.trans e2, f3.trans e3, f4.trans e4, f5.trans e5,
    f6.trans e6, f7.trans e7⟩

theorem updFn_sep (uid : Nat) (row : DocRow) (d : Document) :
    SameExceptPreferred d (updFn uid row d) := by
  unfold updFn
  split <;> exact ⟨rfl, rfl, rfl, rfl, rfl, rfl, rfl⟩

theorem forall₂_sep_refl (docs : List Document) :
    List.Forall₂ SameExceptPreferred docs docs := by
  induction docs with
  | nil => exact List.Forall₂.nil
  | cons d ds ih => exact List.Forall₂.cons (sep_refl d) ih

theorem forall₂_sep_map (docs : List Document) (f : Document → Document)
    (hf : ∀ d, SameExceptPreferred d (f d)) :
    List.Forall₂ SameExceptPreferred docs (docs.map f) := by
  induction docs with
  | nil => exact List.Forall₂.nil
  | cons d ds ih => exact List.Forall₂.cons (hf d) ih

theorem forall₂_sep_trans {a b c : List Document}
    (h1 : List.Forall₂ SameExceptPreferred a b)
    (h2 : List.Forall₂ SameExceptPreferred b c) :
    List.Forall₂ SameExceptPreferred a c := by
  induction h1 generalizing c with
  | nil => cases h2; exact List.Forall₂.nil
  | cons hab h1' ih =>
    cases h2 with
    | cons hbc h2' => exact List.Forall₂.cons (sep_trans hab hbc) (ih h2')

theorem forall₂_sep_map_eq {α : Type} (f : Document → α)
    (hf : ∀ a b, SameExceptPreferred a b → f a = f b) {l1 l2 : List Document}
    (h : List.Forall₂ SameExceptPreferred l1 l2) : l2.map f = l1.map f := by
  induction h with
  | nil => rfl
  | cons hab h ih => simp [hf _ _ hab, ih]

theorem applyDocRow_sep (uid : Nat) (docs : List Document) (row : DocRow) :
    List.Forall₂ SameExceptPreferred docs (applyDocRow uid docs row) := by
  unfold applyDocRow
  cases hf : docs.find? (fun d => d.id == row.id) with
  | none => exact forall₂_sep_refl docs
  | some d =>
    dsimp only
    by_cases hu : d.user_id = uid
    · rw [if_pos hu]
      exact forall₂_sep_map _ _ (fun d' => updFn_sep uid row d')
    · rw [if_neg hu]
      exact forall₂_sep_refl docs

theorem saveDocsLoop_sep (uid : Nat) (docs : List Document) (rows : List DocRow) :
    List.Forall₂ SameExceptPreferred docs (saveDocsLoop uid docs rows) := by
  induction rows generalizing docs with
  | nil => exact forall₂_sep_refl docs
  | cons row rest ih =>
    simp only [saveDocsLoop, List.foldl_cons]
    exact forall₂_sep_trans (applyDocRow_sep uid docs row) (ih (applyDocRow uid docs row))

theorem saveDocsLoop_map_id (uid : Nat) (docs : List Document) (rows : List DocRow) :
    (saveDocsLoop uid docs rows).map (fun d => d.id) = docs.map (fun d => d.id) :=
  forall₂_sep_map_eq _ (fun _ _ hab => hab.1.symm) (saveDocsLoop_sep uid docs rows)

theorem applyDocRow_map_id (uid : Nat) (docs : List Document) (row : DocRow) :
    (applyDocRow uid docs row).map (fun d => d.id) = docs.map (fun d => d.id) :=
  forall₂_sep_map_eq _ (fun _ _ hab => hab.1.symm) (applyDocRow_sep uid docs row)

theorem updFn_eq_of_ne (uid : Nat) (row : DocRow) (d : Document)
    (h : ¬(d.id = row.id ∧ d.user_id = uid)) : updFn uid row d = d := by
  unfold updFn
  rw [if_neg h]

theorem updFn_eq_of_match (uid : Nat) (row : DocRow) (d : Document)
    (hid : d.id = row.id) (hu : d.user_id = uid) :
    updFn uid row d = { d with preferred_resume := row.preferred_resume } := by
  unfold updFn
  rw [if_pos ⟨hid, hu⟩]

/-- Per-position behaviour of one loop iteration: a stored document is either
left alone or, when its id matches the row and it belongs to the acting user,
its preferred flag is overwritten with the row's value. -/
theorem applyDocRow_getElem? (uid : Nat) (docs : List Document) (row : DocRow) (i : Nat) :
    (applyDocRow uid docs row)[i]? = docs[i]? ∨
    ∃ d, docs[i]? = some d ∧ d.id = row.id ∧ d.user_id = uid ∧
      (applyDocRow uid docs row)[i]? =
        some { d with preferred_resume := row.preferred_resume } := by
  unfold applyDocRow
  cases hf : docs.find? (fun d => d.id == row.id) with
  | none => left; rfl
  | some d0 =>
    dsimp only
    by_cases hu : d0.user_id = uid
    · rw [if_pos hu]
      cases hd : docs[i]? with
      | none => left; simp [List.getElem?_map, hd]
      | some d =>
        by_cases hc : d.id = row.id ∧ d.user_id = uid
        · right
          exact ⟨d, rfl, hc.1, hc.2, by
            simp [List.getElem?_map, hd, updFn_eq_of_match uid row d hc.1 hc.2]⟩
        · left
          simp [List.getElem?_map, hd, updFn_eq_of_ne uid row d hc]
    · rw [if_neg hu]
      left; rfl

/-- A stored document whose id matches no row of the batch is not changed by
the loop. -/
theorem saveDocsLoop_untouched (uid : Nat) (rows : List DocRow) (docs : List Document)
    (i : Nat) (d : Document) (hd : docs[i]? = some d)
    (hne : ∀ r ∈ rows, d.id ≠ r.id) :
    (saveDocsLoop uid docs rows)[i]? = some d := by
  induction rows generalizing docs with
  | nil => exact hd
  | cons row rest ih =>
    simp only [saveDocsLoop, List.foldl_cons] at *
    apply ih (applyDocRow uid docs row) ?_ (fun r hr => hne r (List.mem_cons_of_mem _ hr))
    rcases applyDocRow_getElem? uid docs row i with h | ⟨d', hd', hid', _, _⟩
    · rw [h, hd]
    · rw [hd] at hd'
      cases hd'
      exact absurd hid' (hne row (List.mem_cons_self row rest))

/-- A stored document that does not belong to the acting user is not changed
by the loop: rows of the batch targeting it are silently skipped. -/
theorem saveDocsLoop_skip (uid : Nat) (rows : List DocRow) (docs : List Document)
    (i : Nat) (d : Document) (hd : docs[i]? = some d)
    (hne : d.user_id ≠ uid) :
    (saveDocsLoop uid docs rows)[i]? = some d := by
  induction rows generalizing docs with
  | nil => exact hd
  | cons row rest ih =>
    simp only [saveDocsLoop, List.foldl_cons] at *
    apply ih (applyDocRow uid docs row)
    rcases applyDocRow_getElem? uid docs row i with h | ⟨d', hd', _, hu', _⟩
    · rw [h, hd]
    · rw [hd] at hd'
      cases hd'
      exact absurd hu' hne

/-- With distinct stored ids, the ownership lookup `SELECT user_id FROM
documents WHERE id = ?` finds exactly the targeted document. -/
theorem find?_id_unique (docs : List Document)
    (hnodup : (docs.map (fun d => d.id)).Nodup) (d : Document) (hd : d ∈ docs) :
    docs.find? (fun d' => d'.id == d.id) = some d := by
  induction docs with
  | nil => cases hd
  | cons x xs ih =>
    simp only [List.map_cons, List.nodup_cons] at hnodup
    rcases List.mem_cons.mp hd with rfl | hmem
    · exact List.find?_cons_of_pos _ (by simp)
    · have hne : x.id ≠ d.id := by
        intro he
        exact hnodup.1 (he ▸ List.mem_map_of_mem (fun d => d.id) hmem)
      rw [List.find?_cons_of_neg _ (by simp [hne])]
      exact ih hnodup.2 hmem

/-- One loop iteration applies its row to the matching document of the acting
user (distinct stored ids). -/
theorem applyDocRow_applied (uid : Nat) (docs : List Document) (row : DocRow)
    (i : Nat) (d : Document) (hnodup : (docs.map (fun d => d.id)).Nodup)
    (hd : docs[i]? = some d) (hid : d.id = row.id) (hu : d.user_id = uid) :
    (applyDocRow uid docs row)[i]? =
      some { d with preferred_resume := row.preferred_resume } := by
  have hmem : d ∈ docs := List.mem_iff_getElem?.mpr ⟨i, hd⟩
  have hfind : docs.find? (fun d' => d'.id == row.id) = some d := by
    have h := find?_id_unique docs hnodup d hmem
    rw [hid] at h
    exact h
  unfold applyDocRow
  rw [hfind]
  dsimp only
  rw [if_pos hu]
  simp [List.getElem?_map, hd, updFn_eq_of_match uid row d hid hu]

/-- The loop applies the (unique) batch row addressing a document of the
acting user: afterwards that document's preferred flag equals the row's
value, with all other fields unchanged. -/
theorem saveDocsLoop_applied (uid : Nat) (rows : List DocRow) (docs : List Document)
    (hnodupD : (docs.map (fun d => d.id)).Nodup)
    (hnodupR : (rows.map (fun r => r.id)).Nodup)
    (i : Nat) (d : Document) (hd : docs[i]? = some d)
    (r : DocRow) (hr : r ∈ rows) (hid : d.id = r.id) (hu : d.user_id = uid) :
    (saveDocsLoop uid docs rows)[i]? =
      some { d with preferred_resume := r.preferred_resume } := by
  induction rows generalizing docs with
  | nil => cases hr
  | cons row rest ih =>
    simp only [List.map_cons, List.nodup_cons] at hnodupR
    simp only [saveDocsLoop, List.foldl_cons] at *
    rcases List.mem_cons.mp hr with rfl | hmem
    · have hstep := applyDocRow_applied uid docs r i d hnodupD hd hid hu
      apply saveDocsLoop_untouched uid rest (applyDocRow uid docs r) i _ hstep
      intro r' hr' he
      exact hnodupR.1 (by
        rw [show ({ d with preferred_resume := r.preferred_resume } : Document).id = d.id
          from rfl, hid] at he
        exact he ▸ List.mem_map_of_mem (fun r => r.id) hr')
    · have hrow_ne : d.id ≠ row.id := by
        intro he
        apply hnodupR.1
        rw [← he, hid]
        exact List.mem_map_of_mem (fun r => r.id) hmem
      have hstep : (applyDocRow uid docs row)[i]? = some d := by
        rcases applyDocRow_getElem? uid docs row i with h | ⟨d', hd', hid', _, _⟩
        · rw [h, hd]
        · rw [hd] at hd'
          cases hd'
          exact absurd hid' hrow_ne
      have hnodupD' : ((applyDocRow uid docs row).map (fun d => d.id)).Nodup := by
        rw [applyDocRow_map_id]
        exact hnodupD
      exact ih (applyDocRow uid docs row) hnodupD' hnodupR.2 hstep hmem

/-! Shared helper lemmas for the claims. -/

/-- The two batch document-save implementations run the identical algorithm. -/
theorem save_documents_backends_agree :
    supabase_save_documents_to_database = save_documents_to_database := rfl

theorem two_le_length_of_two_mem {α : Type} {l : List α} {a b : α}
    (ha : a ∈ l) (hb : b ∈ l) (hne : a ≠ b) : 2 ≤ l.length := by
  cases l with
  | nil => cases ha
  | cons x xs =>
    rcases List.mem_cons.mp ha with rfl | ha'
    · rcases List.mem_cons.mp hb with rfl | hb'
      · exact absurd rfl hne
      · have := List.length_pos_of_mem hb'
        simp only [List.length_cons]
        omega
    · have := List.length_pos_of_mem ha'
      simp only [List.length_cons]
      omega

theorem nodup_getElem?_inj {α : Type} {l : List α} (h : l.Nodup) {i j : Nat} {x : α}
    (hi : l[i]? = some x) (hj : l[j]? = some x) : i = j := by
  obtain ⟨hib, hie⟩ := List.getElem?_eq_some.mp hi
  obtain ⟨hjb, hje⟩ := List.getElem?_eq_some.mp hj
  exact (List.Nodup.getElem_inj_iff h).mp (hie.trans hje.symm)

theorem filterMap_id_map_some (l : List (Option String)) (h : ∀ x ∈ l, x ≠ none) :
    (l.filterMap id).map some = l := by
  induction l with
  | nil => rfl
  | cons x xs ih =>
    cases x with
    | none => exact absurd rfl (h none (List.mem_cons_self _ _))
    | some a =>
      simp only [List.filterMap_cons, id_eq, List.map_cons]
      rw [ih (fun x hx => h x (List.mem_cons_of_mem _ hx))]

theorem users_foldl_id_preserved (rows : List UserEditRow) (now : DateTime)
    (us : List UserRow) (i : Nat) (h : ∃ u ∈ us, u.id = i) :
    ∃ u' ∈ rows.foldl (userEditStep now) us, u'.id = i := by
  induction rows generalizing us with
  | nil => exact h
  | cons r rest ih =>
    simp only [List.foldl_cons]
    apply ih
    obtain ⟨u, hu, hid⟩ := h
    unfold userEditStep
    cases r.id with
    | some i0 =>
      refine ⟨if u.id = i0 then
        { u with username := r.username, password_hash := r.password_hash,
                 email := r.email, created_at := r.created_at } else u, ?_, ?_⟩
      · exact List.mem_map_of_mem _ hu
      · split <;> exact hid
    | none => exact ⟨u, List.mem_append_left _ hu, hid⟩

/-! Claim theorems. -/

/-- Claim C2: a submitted batch in which more than one row carries
preferred-resume = true is rejected by both backends with the descriptive
message, and no write at all is performed: the returned state is the stored
state, every field unchanged. -/
theorem c2_overfull_batch_rejected_atomically (st : DBState) (user_id : Nat)
    (rows : List DocRow)
    (h : 1 < (rows.filter (fun r => r.preferred_resume)).length) :
    save_documents_to_database st user_id rows =
      (st, false, "Only one document can be set as preferred resume per user") ∧
    supabase_save_documents_to_database st user_id rows =
      (st, false, "Only one document can be set as preferred resume per user") := by
  constructor
  · unfold save_documents_to_database
    rw [if_pos h]
  · unfold supabase_save_documents_to_database
    rw [if_pos h]

/-- Witness for C2: a concrete two-preferred batch is rejected and the
concrete store is returned untouched. -/
theorem c2_overfull_batch_rejected_atomically_witness :
    1 < (c2rows.filter (fun r => r.preferred_resume)).length ∧
    save_documents_to_database stDocs 1 c2rows =
      (stDocs, false, "Only one document can be set as preferred resume per user") :=
  ⟨by decide, (c2_overfull_batch_rejected_atomically stDocs 1 c2rows (by decide)).1⟩

/-- Claim C3 (counterexample): with the Supabase module importable, the
hosted configuration present in the secrets AND the local database file
present on disk, the claimed rule selects the local backend, but
`use_supabase` selects the hosted one. -/
theorem c3_counterexample : use_supabase true true true ≠ (true && !true) := by
  decide

/-- Claim C3 (amended): the backend selector routes to the hosted backend
exactly when the Supabase module is importable AND (the hosted configuration
is present in the Streamlit secrets OR the local database file is absent);
in particular, when the hosted configuration is present, the hosted backend
is selected even though the local database file exists. -/
theorem c3_backend_selector_amended (available config file_exists : Bool) :
    use_supabase available config file_exists =
      (available && (config || !file_exists)) ∧
    is_cloud_environment config file_exists = (config || !file_exists) := by
  revert available config file_exists
  decide

/-- Claim C7: the batch document-save path changes at most the
preferred-resume flag of each stored document: id, owner, name, type, upload
date, file path and content are identical before and after the call, on both
backends, with no row inserted, deleted or reordered. -/
theorem c7_batch_save_frame (st : DBState) (uid : Nat) (rows : List DocRow) :
    List.Forall₂ SameExceptPreferred st.documents
      ((save_documents_to_database st uid rows).1.documents) ∧
    List.Forall₂ SameExceptPreferred st.documents
      ((supabase_save_documents_to_database st uid rows).1.documents) := by
  constructor
  · unfold save_documents_to_database
    split
    · exact forall₂_sep_refl _
    · exact saveDocsLoop_sep uid st.documents rows
  · unfold supabase_save_documents_to_database
    split
    · exact forall₂_sep_refl _
    · exact saveDocsLoop_sep uid st.documents rows

/-- Claim C9: a document created through the single-row upload path always
has preferred-resume = false, on both backends, even though the submitted
fields carry `preferred_resume = true`: every document of the resulting
store is either a previously stored one or has the flag false. -/
theorem c9_upload_never_preferred (st : DBState) (uid : Nat) (dd : DocumentData)
    (now : DateTime) :
    (∀ d ∈ (add_document st uid dd now).1.documents,
      d ∈ st.documents ∨ d.preferred_resume = false) ∧
    (∀ d ∈ (supabase_add_document st uid dd now).1.documents,
      d ∈ st.documents ∨ d.preferred_resume = false) := by
  constructor
  · intro d hd
    simp only [add_document] at hd
    rcases List.mem_append.mp hd with h | h
    · exact Or.inl h
    · right
      rw [List.mem_singleton.mp h]
  · intro d hd
    simp only [supabase_add_document] at hd
    rcases List.mem_append.mp hd with h | h
    · exact Or.inl h
    · right
      rw [List.mem_singleton.mp h]

/-- Witness for C9: the concrete document created by uploading `ddW`
(submitted with `preferred_resume = true`) is stored with the flag false. -/
theorem c9_upload_never_preferred_witness :
    (⟨4, 1, some "New_Resume", some "Resume", "2026-10-12 09:05:03",
      some "data/documents/n.pdf", none, false⟩ : Document) ∈ stDocs.documents ∨
    (⟨4, 1, some "New_Resume", some "Resume", "2026-10-12 09:05:03",
      some "data/documents/n.pdf", none, false⟩ : Document).preferred_resume = false :=
  (c9_upload_never_preferred stDocs 1 ddW nowW).1
    ⟨4, 1, some "New_Resume", some "Resume", "2026-10-12 09:05:03",
      some "data/documents/n.pdf", none, false⟩ (by decide)

/-- Claim C10: `get_preferred_resume` returns `None` exactly when the user
has no stored document that is simultaneously theirs, flagged preferred and
of type Resume; otherwise it returns exactly one stored row, and that row is
owned by the requesting user, is of type Resume and has the flag set; the
hosted implementation computes the same result. -/
theorem c10_preferred_resume_query (st : DBState) (uid : Nat) :
    (get_preferred_resume st uid = none ↔
      ∀ d ∈ st.documents, ¬(d.user_id = uid ∧ d.preferred_resume = true ∧
        d.document_type = some "Resume")) ∧
    (∀ d, get_preferred_resume st uid = some d →
      d ∈ st.documents ∧ d.user_id = uid ∧ d.preferred_resume = true ∧
        d.document_type = some "Resume") ∧
    supabase_get_preferred_resume st uid = get_preferred_resume st uid := by
  refine ⟨?_, ?_, rfl⟩
  · unfold get_preferred_resume
    rw [List.head?_eq_none_iff, List.filter_eq_nil_iff]
    constructor
    · intro h d hd hc
      exact h d hd (by simp [hc.1, hc.2.1, hc.2.2])
    · intro h d hd hp
      simp only [Bool.and_eq_true, beq_iff_eq] at hp
      exact h d hd ⟨hp.1.1, hp.1.2, hp.2⟩
  · intro d h
    unfold get_preferred_resume at h
    have hmem : d ∈ st.documents.filter (fun d =>
        d.user_id == uid && d.preferred_resume && d.document_type == some "Resume") :=
      List.mem_of_mem_head? (by simp [h])
    obtain ⟨hd, hp⟩ := List.mem_filter.mp hmem
    simp only [Bool.and_eq_true, beq_iff_eq] at hp
    exact ⟨hd, hp.1.1, hp.1.2, hp.2⟩

/-- Witness for C10: on the concrete store, user 1's query returns the
stored `fixDoc1`, which is user 1's preferred Resume. -/
theorem c10_preferred_resume_query_witness :
    fixDoc1 ∈ stDocs.documents ∧ fixDoc1.user_id = 1 ∧
    fixDoc1.preferred_resume = true ∧ fixDoc1.document_type = some "Resume" :=
  (c10_preferred_resume_query stDocs 1).2.1 fixDoc1 (by decide)

/-- Claim C1 (counterexample): on a store where user 1's Resume is already
flagged preferred, the one-row batch flagging the user's Cover Letter passes
validation on both backends; after the successful call user 1 has two
flagged documents and one of them is not of type Resume, so the claimed
stored invariant does not hold after a successful batch write. -/
theorem c1_counterexample :
    ((save_documents_to_database stDocs 1 [rowOf fixDoc2 true]).2.1 = true ∧
     (supabase_save_documents_to_database stDocs 1 [rowOf fixDoc2 true]).2.1 = true) ∧
    ¬((∀ d ∈ (save_documents_to_database stDocs 1 [rowOf fixDoc2 true]).1.documents,
        ∀ d' ∈ (save_documents_to_database stDocs 1 [rowOf fixDoc2 true]).1.documents,
          d.user_id = 1 → d'.user_id = 1 → d.preferred_resume = true →
            d'.preferred_resume = true → d = d') ∧
      (∀ d ∈ (save_documents_to_database stDocs 1 [rowOf fixDoc2 true]).1.documents,
        d.preferred_resume = true → d.document_type = some "Resume")) := by
  decide

/-- Claim C1 (amended): the batch path re-validates only the submitted
batch, so a successful call guarantees that at most one batch row is flagged
preferred; the stored at-most-one-preferred-per-user property follows only
when the batch covers every document of the user (ids being primary-key
distinct), and the path never inspects document types, so nothing restricts
the flag to type Resume. -/
theorem c1_preferred_invariant_amended (st : DBState) (uid : Nat) (rows : List DocRow)
    (hnodupD : (st.documents.map (fun d => d.id)).Nodup)
    (hnodupR : (rows.map (fun r => r.id)).Nodup)
    (hcover : ∀ d ∈ st.documents, d.user_id = uid → ∃ r ∈ rows, r.id = d.id)
    (hok : (save_documents_to_database st uid rows).2.1 = true) :
    (rows.filter (fun r => r.preferred_resume)).length ≤ 1 ∧
    (∀ d ∈ (save_documents_to_database st uid rows).1.documents,
      ∀ d' ∈ (save_documents_to_database st uid rows).1.documents,
        d.user_id = uid → d'.user_id = uid → d.preferred_resume = true →
          d'.preferred_resume = true → d = d') ∧
    (∀ d ∈ (supabase_save_documents_to_database st uid rows).1.documents,
      ∀ d' ∈ (supabase_save_documents_to_database st uid rows).1.documents,
        d.user_id = uid → d'.user_id = uid → d.preferred_resume = true →
          d'.preferred_resume = true → d = d') := by
  have hle : (rows.filter (fun r => r.preferred_resume)).length ≤ 1 := by
    by_contra hc
    unfold save_documents_to_database at hok
    rw [if_pos (Nat.not_le.mp hc)] at hok
    simp at hok
  have hres : (save_documents_to_database st uid rows).1.documents =
      saveDocsLoop uid st.documents rows := by
    unfold save_documents_to_database
    rw [if_neg (by omega)]
  have main : ∀ d ∈ saveDocsLoop uid st.documents rows,
      ∀ d' ∈ saveDocsLoop uid st.documents rows,
        d.user_id = uid → d'.user_id = uid → d.preferred_resume = true →
          d'.preferred_resume = true → d = d' := by
    intro d hd d' hd' hu hu' hp hp'
    obtain ⟨i, hi⟩ := List.mem_iff_getElem?.mp hd
    obtain ⟨j, hj⟩ := List.mem_iff_getElem?.mp hd'
    have hlen : st.documents.length = (saveDocsLoop uid st.documents rows).length :=
      (saveDocsLoop_sep uid st.documents rows).length_eq
    obtain ⟨hib0, _⟩ := List.getElem?_eq_some.mp hi
    obtain ⟨hjb0, _⟩ := List.getElem?_eq_some.mp hj
    have hib : i < st.documents.length := by omega
    have hjb : j < st.documents.length := by omega
    have hdi : st.documents[i]? = some st.documents[i] :=
      List.getElem?_eq_some.mpr ⟨hib, rfl⟩
    have hdj : st.documents[j]? = some st.documents[j] :=
      List.getElem?_eq_some.mpr ⟨hjb, rfl⟩
    have hdiu : st.documents[i].user_id = uid := by
      by_contra hne
      have hskip := saveDocsLoop_skip uid rows st.documents i _ hdi hne
      rw [hi] at hskip
      injection hskip with he
      exact hne (he ▸ hu)
    have hdju : st.documents[j].user_id = uid := by
      by_contra hne
      have hskip := saveDocsLoop_skip uid rows st.documents j _ hdj hne
      rw [hj] at hskip
      injection hskip with he
      exact hne (he ▸ hu')
    obtain ⟨r, hr, hrid⟩ := hcover st.documents[i]
      (List.mem_iff_getElem?.mpr ⟨i, hdi⟩) hdiu
    obtain ⟨r', hr', hrid'⟩ := hcover st.documents[j]
      (List.mem_iff_getElem?.mpr ⟨j, hdj⟩) hdju
    have happ := saveDocsLoop_applied uid rows st.documents hnodupD hnodupR i _
      hdi r hr hrid.symm hdiu
    have happ' := saveDocsLoop_applied uid rows st.documents hnodupD hnodupR j _
      hdj r' hr' hrid'.symm hdju
    rw [hi] at happ
    rw [hj] at happ'
    injection happ with hde
    injection happ' with hde'
    by_cases hij : i = j
    · subst hij
      rw [hi] at hj
      injection hj
    · exfalso
      have hidne : st.documents[i].id ≠ st.documents[j].id := by
        intro he
        apply hij
        apply nodup_getElem?_inj hnodupD
          (i := i) (j := j) (x := st.documents[i].id)
        · simp [List.getElem?_map, hdi]
        · simp [List.getElem?_map, hdj, he]
      have hrne : r ≠ r' := by
        intro he
        exact hidne (by rw [← hrid, ← hrid', he])
      have hrp : r.preferred_resume = true := by
        rw [hde] at hp
        simpa using hp
      have hrp' : r'.preferred_resume = true := by
        rw [hde'] at hp'
        simpa using hp'
      have hmem1 : r ∈ rows.filter (fun r => r.preferred_resume) :=
        List.mem_filter.mpr ⟨hr, hrp⟩
      have hmem2 : r' ∈ rows.filter (fun r => r.preferred_resume) :=
        List.mem_filter.mpr ⟨hr', hrp'⟩
      have := two_le_length_of_two_mem hmem1 hmem2 hrne
      omega
  refine ⟨hle, ?_, ?_⟩
  · rw [hres]
    exact main
  · rw [save_documents_backends_agree, hres]
    exact main

/-- Witness for the amended C1: a concrete full-coverage one-preferred batch
satisfies the hypotheses, and the bound on the number of flagged batch rows
holds there. -/
theorem c1_preferred_invariant_amended_witness :
    (stDocs.documents.map (fun d => d.id)).Nodup ∧
    (c1rows.filter (fun r => r.preferred_resume)).length ≤ 1 :=
  ⟨by decide, (c1_preferred_invariant_amended stDocs 1 c1rows (by decide) (by decide)
      (by decide) (by decide)).1⟩

/-- Claim C4 (counterexample): on a fixture holding one job whose status is
`NULL`, the embedded path's status map contains a `NULL` group while the
hosted path's `value_counts()` drops it, so the two backends do not compute
identical results on this identical fixture. -/
theorem c4_counterexample :
    get_user_stats stStats 1 "2026-10-05" ≠
      supabase_get_user_stats stStats 1 "2026-10-05" := by
  decide

/-- Claim C4 (amended): on every fixture in which each of the user's jobs
has a non-`NULL` status, `get_user_stats` computes identical results on both
backends — same total, same status map, same trailing-window count (both
windows taken against the same data-layer cutoff string); when a `NULL`
status is stored, the embedded path additionally reports a `NULL` group that
the hosted path omits. -/
theorem c4_stats_equivalence_amended (st : DBState) (uid : Nat) (cutoff : String)
    (hstatus : ∀ j ∈ st.jobs, j.user_id = uid → j.status ≠ none) :
    get_user_stats st uid cutoff = supabase_get_user_stats st uid cutoff := by
  unfold get_user_stats supabase_get_user_stats
  have hst : ∀ x ∈ (st.jobs.filter (fun j => j.user_id == uid)).map
      (fun j => j.status), x ≠ none := by
    intro x hx
    obtain ⟨j, hj, rfl⟩ := List.mem_map.mp hx
    obtain ⟨hjm, hju⟩ := List.mem_filter.mp hj
    exact hstatus j hjm (by simpa using hju)
  by_cases hemp : (st.jobs.filter (fun j => j.user_id == uid)).isEmpty = true
  · have hnil : st.jobs.filter (fun j => j.user_id == uid) = [] :=
      List.isEmpty_iff.mp hemp
    rw [if_pos hemp, hnil]
    simp [countsBy]
  · rw [if_neg hemp, filterMap_id_map_some _ hst]

/-- Witness for the amended C4: the spec's example fixture (statuses
Applied times 3, Rejected times 2, Interviewing times 1) satisfies the
hypothesis, both backends agree, and the common result is total = 6 with
exactly that status map. -/
theorem c4_stats_equivalence_amended_witness :
    get_user_stats stSix 1 "2026-10-05" = supabase_get_user_stats stSix 1 "2026-10-05" ∧
    get_user_stats stSix 1 "2026-10-05" =
      (6, [(some "Applied", 3), (some "Rejected", 2), (some "Interviewing", 1)], 2) :=
  ⟨c4_stats_equivalence_amended stSix 1 "2026-10-05" (by decide), by decide⟩

/-- Claim C5 (counterexample): deleting user 1 through the user-admin grid
removes the `users` row but leaves user 1's job, document, profile and
career-goals rows in place — no cascade is declared in the schema or
implemented in the deletion path, so the claimed cascade does not happen. -/
theorem c5_counterexample :
    (save_users_to_database stFull [] nowW).1.users = [] ∧
    (save_users_to_database stFull [] nowW).1.jobs =
      [mkJob 1 "Applied" "2026-10-10 09:00:00"] ∧
    (save_users_to_database stFull [] nowW).1.documents = [fixDoc1] ∧
    (save_users_to_database stFull [] nowW).1.profiles = stFull.profiles ∧
    (save_users_to_database stFull [] nowW).1.career_goals = stFull.career_goals ∧
    (mkJob 1 "Applied" "2026-10-10 09:00:00").user_id = u1.id := by
  decide

/-- Claim C5 (amended): deleting a User row through the user-admin path
removes only `users` rows: the user's Jobs, Documents, UserProfile and
CareerGoals rows are left untouched (orphaned), as is every other user's
row in those tables, and every user still present in the edited grid keeps
a `users` row with their id. -/
theorem c5_user_delete_amended (st : DBState) (rows : List UserEditRow) (now : DateTime) :
    (save_users_to_database st rows now).1.jobs = st.jobs ∧
    (save_users_to_database st rows now).1.documents = st.documents ∧
    (save_users_to_database st rows now).1.profiles = st.profiles ∧
    (save_users_to_database st rows now).1.career_goals = st.career_goals ∧
    ∀ u ∈ st.users, (rows.filterMap (fun r => r.id)).contains u.id →
      ∃ u' ∈ (save_users_to_database st rows now).1.users, u'.id = u.id := by
  refine ⟨rfl, rfl, rfl, rfl, ?_⟩
  intro u hu hc
  have hkept : u ∈ st.users.filter (fun u =>
      (rows.filterMap (fun r => r.id)).contains u.id) :=
    List.mem_filter.mpr ⟨hu, hc⟩
  exact users_foldl_id_preserved rows now _ u.id ⟨u, hkept, rfl⟩

/-- Witness for the amended C5: editing (keeping) user 1 leaves the jobs
table untouched and keeps a `users` row with id 1. -/
theorem c5_user_delete_amended_witness :
    (save_users_to_database stFull c5rows nowW).1.jobs = stFull.jobs ∧
    ∃ u' ∈ (save_users_to_database stFull c5rows nowW).1.users, u'.id = u1.id :=
  ⟨(c5_user_delete_amended stFull c5rows nowW).1,
   (c5_user_delete_amended stFull c5rows nowW).2.2.2.2 u1 (by decide) (by decide)⟩

/-- Claim C6: ownership isolation.  With primary-key-distinct stored ids and
a batch passing validation, the batch save succeeds on both backends while
every stored document belonging to another user is left exactly as it was
(its rows are silently skipped, not errors), every batch row addressing a
document of the acting user is still applied, and a delete issued against
another user's document affects zero rows, leaves the store unchanged, and
returns a failure message instead of raising, on both backends. -/
theorem c6_ownership_isolation (st : DBState) (uidB : Nat) (rows : List DocRow)
    (hnodupD : (st.documents.map (fun d => d.id)).Nodup)
    (hvalid : (rows.filter (fun r => r.preferred_resume)).length ≤ 1) :
    ((save_documents_to_database st uidB rows).2.1 = true ∧
     (supabase_save_documents_to_database st uidB rows).2.1 = true) ∧
    (∀ (i : Nat) (d : Document), st.documents[i]? = some d → d.user_id ≠ uidB →
      ((save_documents_to_database st uidB rows).1.documents)[i]? = some d ∧
      ((supabase_save_documents_to_database st uidB rows).1.documents)[i]? = some d) ∧
    (∀ (i : Nat) (d : Document) (r : DocRow),
      (rows.map (fun r => r.id)).Nodup → st.documents[i]? = some d →
      r ∈ rows → d.id = r.id → d.user_id = uidB →
      ((save_documents_to_database st uidB rows).1.documents)[i]? =
        some { d with preferred_resume := r.preferred_resume }) ∧
    (∀ d ∈ st.documents, d.user_id ≠ uidB →
      delete_document st uidB d.id =
        (st, false, "Document not found or access denied") ∧
      supabase_delete_document st uidB d.id =
        (st, false, "Document not found or access denied")) := by
  have hres : save_documents_to_database st uidB rows =
      ({ st with documents := saveDocsLoop uidB st.documents rows }, true,
        "Documents updated successfully!") := by
    unfold save_documents_to_database
    rw [if_neg (by omega)]
  refine ⟨⟨by rw [hres], by rw [save_documents_backends_agree, hres]⟩, ?_, ?_, ?_⟩
  · intro i d hd hne
    constructor
    · rw [hres]
      exact saveDocsLoop_skip uidB rows st.documents i d hd hne
    · rw [save_documents_backends_agree, hres]
      exact saveDocsLoop_skip uidB rows st.documents i d hd hne
  · intro i d r hnodupR hd hr hid hu
    rw [hres]
    exact saveDocsLoop_applied uidB rows st.documents hnodupD hnodupR i d hd r hr hid hu
  · intro d hd hne
    constructor
    · unfold delete_document
      have hfind : st.documents.find?
          (fun d' => d'.id == d.id && d'.user_id == uidB) = none := by
        rw [List.find?_eq_none]
        intro x hx
        simp only [Bool.and_eq_true, beq_iff_eq, not_and]
        intro hxid
        have hxd : x = d := List.inj_on_of_nodup_map hnodupD hx hd hxid
        rw [hxd]
        exact hne
      rw [hfind]
    · unfold supabase_delete_document
      cases hf : st.documents.find? (fun d' => d'.id == d.id) with
      | none => rfl
      | some d0 =>
        have hd0m : d0 ∈ st.documents := List.mem_of_find?_eq_some hf
        have hd0id : d0.id = d.id := by simpa using List.find?_some hf
        have hd0d : d0 = d := List.inj_on_of_nodup_map hnodupD hd0m hd hd0id
        subst hd0d
        dsimp only
        rw [if_neg hne]

/-- Witness for C6: on the concrete store, acting as user 1: the mixed batch
succeeds, user 2's document is untouched, user 1's Cover Letter row is
applied, and user 1's attempt to delete user 2's document fails without
effect. -/
theorem c6_ownership_isolation_witness :
    (save_documents_to_database stDocs 1 c6rows).2.1 = true ∧
    ((save_documents_to_database stDocs 1 c6rows).1.documents)[2]? = some fixDoc3 ∧
    ((save_documents_to_database stDocs 1 c6rows).1.documents)[1]? =
      some { fixDoc2 with preferred_resume := true } ∧
    delete_document stDocs 1 fixDoc3.id =
      (stDocs, false, "Document not found or access denied") := by
  have h := c6_ownership_isolation stDocs 1 c6rows (by decide) (by decide)
  exact ⟨h.1.1, (h.2.1 2 fixDoc3 (by decide) (by decide)).1,
    h.2.2.1 1 fixDoc2 (rowOf fixDoc2 true) (by decide) (by decide) (by decide)
      (by decide) (by decide),
    (h.2.2.2 fixDoc3 (by decide) (by decide)).1⟩

/-- Claim C8: every write path (`add_job`, `add_document`,
`add_career_goals`, `update_user_profile`, on both backends) stores a
timestamp generated by the data layer from its own clock in the
`"%Y-%m-%d %H:%M:%S"` format (`fmtTimestamp`), never taken from the
caller-supplied fields; and the stored text of two jobs added in immediate
succession is non-decreasing in insertion order whenever the clock is. -/
theorem c8_layer_generated_timestamps :
    (∀ (st : DBState) (uid : Nat) (jd : JobData) (now : DateTime),
      ∀ j ∈ (add_job st uid jd now).1.jobs,
        j ∈ st.jobs ∨ j.date_added = fmtTimestamp now) ∧
    (∀ (st : DBState) (uid : Nat) (jd : JobData) (now : DateTime),
      ∀ j ∈ (supabase_add_job st uid jd now).1.jobs,
        j ∈ st.jobs ∨ j.date_added = fmtTimestamp now) ∧
    (∀ (st : DBState) (uid : Nat) (dd : DocumentData) (now : DateTime),
      ∀ d ∈ (add_document st uid dd now).1.documents,
        d ∈ st.documents ∨ d.upload_date = fmtTimestamp now) ∧
    (∀ (st : DBState) (uid : Nat) (dd : DocumentData) (now : DateTime),
      ∀ d ∈ (supabase_add_document st uid dd now).1.documents,
        d ∈ st.documents ∨ d.upload_date = fmtTimestamp now) ∧
    (∀ (st : DBState) (uid : Nat) (g : String) (now : DateTime),
      ∀ c ∈ (add_career_goals st uid g now).1.career_goals,
        c ∈ st.career_goals ∨ c.submission_date = fmtTimestamp now) ∧
    (∀ (st : DBState) (uid : Nat) (g : String) (now : DateTime),
      ∀ c ∈ (supabase_add_career_goals st uid g now).1.career_goals,
        c ∈ st.career_goals ∨ c.submission_date = fmtTimestamp now) ∧
    (∀ (st : DBState) (uid : Nat) (pd : ProfileData) (now : DateTime),
      ∀ p ∈ (update_user_profile st uid pd now).1.profiles,
        p ∈ st.profiles ∨ p.last_updated_date = fmtTimestamp now) ∧
    (∀ (st : DBState) (uid : Nat) (pd : ProfileData) (now : DateTime),
      ∀ p ∈ (supabase_update_user_profile st uid pd now).1.profiles,
        p ∈ st.profiles ∨ p.last_updated_date = fmtTimestamp now) ∧
    (∀ (st : DBState) (uid : Nat) (jd1 jd2 : JobData) (now1 now2 : DateTime),
      now1.Valid → now2.Valid → dtLe now1 now2 →
      ∀ j1 ∈ (add_job st uid jd1 now1).1.jobs, j1 ∉ st.jobs →
      ∀ j2 ∈ (add_job (add_job st uid jd1 now1).1 uid jd2 now2).1.jobs,
        j2 ∉ (add_job st uid jd1 now1).1.jobs →
        strLe j1.date_added j2.date_added = true) := by
  refine ⟨?_, ?_, ?_, ?_, ?_, ?_, ?_, ?_, ?_⟩
  · intro st uid jd now j hj
    simp only [add_job] at hj
    rcases List.mem_append.mp hj with h | h
    · exact Or.inl h
    · right; rw [List.mem_singleton.mp h]
  · intro st uid jd now j hj
    simp only [supabase_add_job] at hj
    rcases List.mem_append.mp hj with h | h
    · exact Or.inl h
    · right; rw [List.mem_singleton.mp h]
  · intro st uid dd now d hd
    simp only [add_document] at hd
    rcases List.mem_append.mp hd with h | h
    · exact Or.inl h
    · right; rw [List.mem_singleton.mp h]
  · intro st uid dd now d hd
    simp only [supabase_add_document] at hd
    rcases List.mem_append.mp hd with h | h
    · exact Or.inl h
    · right; rw [List.mem_singleton.mp h]
  · intro st uid g now c hc
    simp only [add_career_goals] at hc
    rcases List.mem_append.mp hc with h | h
    · exact Or.inl h
    · right; rw [List.mem_singleton.mp h]
  · intro st uid g now c hc
    simp only [supabase_add_career_goals] at hc
    rcases List.mem_append.mp hc with h | h
    · exact Or.inl h
    · right; rw [List.mem_singleton.mp h]
  · intro st uid pd now p hp
    unfold update_user_profile at hp
    split at hp
    · obtain ⟨q, hq, rfl⟩ := List.mem_map.mp hp
      by_cases hqu : q.user_id = uid
      · right; simp [hqu]
      · left; simp [hqu, hq]
    · rcases List.mem_append.mp hp with h | h
      · exact Or.inl h
      · right; rw [List.mem_singleton.mp h]
  · intro st uid pd now p hp
    unfold supabase_update_user_profile at hp
    split at hp
    · obtain ⟨q, hq, rfl⟩ := List.mem_map.mp hp
      by_cases hqu : q.user_id = uid
      · right; simp [hqu]
      · left; simp [hqu, hq]
    · rcases List.mem_append.mp hp with h | h
      · exact Or.inl h
      · right; rw [List.mem_singleton.mp h]
  · intro st uid jd1 jd2 now1 now2 hv1 hv2 hle j1 hj1 hnj1 j2 hj2 hnj2
    have h1 : j1.date_added = fmtTimestamp now1 := by
      simp only [add_job] at hj1
      rcases List.mem_append.mp hj1 with h | h
      · exact absurd h hnj1
      · rw [List.mem_singleton.mp h]
    have h2 : j2.date_added = fmtTimestamp now2 := by
      simp only [add_job] at hj2 hnj2
      rcases List.mem_append.mp hj2 with h | h
      · exact absurd h hnj2
      · rw [List.mem_singleton.mp h]
    rw [h1, h2]
    exact fmtTimestamp_mono now1 now2 hv2 hle

/-- Witness for C8: at the concrete clock readings one second apart, two
successive `add_job` calls store timestamps in non-decreasing text order,
and the stored text differs from the caller-supplied `date_added` field. -/
theorem c8_layer_generated_timestamps_witness :
    nowW.Valid ∧ dtLe nowW nowW2 ∧
    strLe j1W.date_added j2W.date_added = true ∧
    j1W.date_added ≠ jdW.date_added.getD "" :=
  ⟨by decide, by decide,
   c8_layer_generated_timestamps.2.2.2.2.2.2.2.2 stDocs 1 jdW jdW nowW nowW2
     (by decide) (by decide) (by decide) j1W (by decide) (by decide)
     j2W (by decide) (by decide),
   by decide⟩

end JobsTracker

